import Mathlib

/-!
Verification of the page-range selection and assembly logic of the
PDF-Customizer repository (split_pdf.py, generate_report.py,
generate_all_reports.py), shallowly embedded in Lean 4.

The core function `create_exploring_ai_report` (split_pdf.py, lines 50-164)
converts two 1-indexed inclusive ranges (a keep range and a skip range) to
0-indexed bounds, runs three validation checks, and then copies two blocks
of pages from the reader into the writer.  We embed the index arithmetic
and validation exactly as written, with Python integers as `Int` and
`range(a, b)` iteration as `intRange a b`.
-/

/-- List of integers `[a, a+1, ..., b-1]`; the embedding of Python
`range(a, b)` iteration order (empty when `b <= a`). -/
def intRange (a b : Int) : List Int :=
  (List.range (b - a).toNat).map (fun i : Nat => a + i)

/-- The three validation failures raised by `create_exploring_ai_report`
(split_pdf.py lines 99-111), each carrying the bounds cited in the
corresponding Python `ValueError` message. -/
inductive SplitError where
  | firstEndExceeds (rangeEnd totalPages : Int)
  | firstStartTooSmall (rangeStart : Int)
  | skipStartExceeds (rangeStart totalPages : Int)
deriving DecidableEq, Repr

/-- The exact message text of each `ValueError` raised in split_pdf.py
lines 100-111 (Python f-strings rendered by concatenation). -/
def splitErrMsg : SplitError → String
  | SplitError.firstEndExceeds e n =>
      "First range end (" ++ toString e ++ ") exceeds total pages (" ++ toString n ++ ")"
  | SplitError.firstStartTooSmall s =>
      "First range start (" ++ toString s ++ ") must be >= 1"
  | SplitError.skipStartExceeds s n =>
      "Skip range start (" ++ toString s ++ ") exceeds total pages (" ++ toString n ++ ")"

/-- Embedding of the index arithmetic, validation and page-list assembly of
`create_exploring_ai_report` (split_pdf.py lines 84-130): convert the
1-indexed ranges to 0-indexed bounds, run the three checks in source order,
then emit the first block `range(first_start_idx, first_end_idx)` followed by
the tail block `range(skip_end_idx, total_pages)` guarded by
`second_start_idx < total_pages`.  The returned list is exactly the sequence
of indices `i` passed to `writer.add_page(reader.pages[i])`, in order. -/
def resolvePages (pages_first_range pages_skip_range : Int × Int)
    (total_pages : Int) : Except SplitError (List Int) :=
  let first_start_idx := pages_first_range.1 - 1
  let first_end_idx := pages_first_range.2
  let skip_start_idx := pages_skip_range.1 - 1
  let skip_end_idx := pages_skip_range.2
  if first_end_idx > total_pages then
    Except.error (SplitError.firstEndExceeds pages_first_range.2 total_pages)
  else if first_start_idx < 0 then
    Except.error (SplitError.firstStartTooSmall pages_first_range.1)
  else if skip_start_idx ≥ total_pages then
    Except.error (SplitError.skipStartExceeds pages_skip_range.1 total_pages)
  else
    let part1 := intRange first_start_idx first_end_idx
    let part2 := if skip_end_idx < total_pages then intRange skip_end_idx total_pages else []
    Except.ok (part1 ++ part2)

/-- Embedding of the copy loops (split_pdf.py lines 119-130): the output
document is the source page at each resolved index, in list order. -/
def assemble {α : Type} (source : Int → α) (pages : List Int) : List α :=
  pages.map source

/-- The Python exceptions that flow through these scripts, each carrying its
message (and, for exceptions of other classes, the class name). -/
inductive PyExc where
  | fileNotFoundError (msg : String)
  | valueError (msg : String)
  | ioError (msg : String)
  | otherError (excName msg : String)
deriving DecidableEq, Repr

/-- The message text `str(e)` of an exception. -/
def PyExc.msg : PyExc → String
  | PyExc.fileNotFoundError m => m
  | PyExc.valueError m => m
  | PyExc.ioError m => m
  | PyExc.otherError _ m => m

/-- Outcome of a Python call: a normal return value, or a propagating
exception. -/
inductive PyResult (α : Type) where
  | normal (v : α)
  | raised (e : PyExc)

/-- The except clauses of `create_exploring_ai_report` (split_pdf.py lines
155-164) applied to an exception raised inside the try block:
`FileNotFoundError` and `ValueError` are re-raised unchanged; every other
exception is wrapped and re-raised as
`IOError("Failed to process PDF: " + str(e))`. -/
def splitExceptClauses : PyExc → PyResult Bool
  | PyExc.fileNotFoundError m => PyResult.raised (PyExc.fileNotFoundError m)
  | PyExc.valueError m => PyResult.raised (PyExc.valueError m)
  | e => PyResult.raised (PyExc.ioError ("Failed to process PDF: " ++ e.msg))

/-- The effectful collaborators of `create_exploring_ai_report`, abstracted:
the outcome of `validate_input_file` (split_pdf.py lines 29-47, raising
before the try block when it fails), of constructing `PdfReader` (yielding
`len(reader.pages)` on success), and of writing the output file. -/
structure PdfEnv where
  inputCheck : Option PyExc
  readerResult : Except PyExc Nat
  writeResult : Option PyExc
deriving Repr

/-- Control-flow embedding of `create_exploring_ai_report` (split_pdf.py
lines 50-164): `validate_input_file` runs before the try block, so its
exception propagates directly; inside the try block the reader is opened,
the three range checks run, the pages are copied and the file written, and
any exception goes through the except clauses; the only normal return is
`return True` on line 153. -/
def create_exploring_ai_report (env : PdfEnv)
    (pages_first_range pages_skip_range : Int × Int) : PyResult Bool :=
  match env.inputCheck with
  | some e => PyResult.raised e
  | none =>
    let body : Except PyExc Bool :=
      match env.readerResult with
      | Except.error e => Except.error e
      | Except.ok total_pages =>
        match resolvePages pages_first_range pages_skip_range (total_pages : Int) with
        | Except.error se => Except.error (PyExc.valueError (splitErrMsg se))
        | Except.ok _pages =>
          match env.writeResult with
          | some e => Except.error e
          | none => Except.ok true
    match body with
    | Except.ok b => PyResult.normal b
    | Except.error e => splitExceptClauses e

/-- Exit-code mapping of `main` (split_pdf.py lines 238-255): `0 if success
else 1` for a normal return, and 1 when `create_exploring_ai_report` raises
(every exception class it can raise is caught and mapped to exit code 1). -/
def mainExitCode : PyResult Bool → Nat
  | PyResult.normal b => if b then 0 else 1
  | PyResult.raised _ => 1

/-- Control-flow embedding of `generate_exploring_ai_report`
(generate_report.py lines 5-52): when the input file is missing it prints
and returns None; otherwise the whole body runs inside
`try ... except Exception`, whose handler prints the error and falls off the
end of the function, returning None.  `body` is the outcome of the
processing inside the try block. -/
def generate_exploring_ai_report (fileExists : Bool)
    (body : PyResult Unit) : PyResult Unit :=
  if !fileExists then PyResult.normal ()
  else
    match body with
    | PyResult.normal v => PyResult.normal v
    | PyResult.raised _ => PyResult.normal ()

/-- Control-flow embedding of `generate_personality_report`
(generate_all_reports.py lines 4-53): unknown personality or missing input
prints and returns None; otherwise the body runs inside
`try ... except Exception`, whose handler prints the error and returns
None. -/
def generate_personality_report (knownType fileExists : Bool)
    (body : PyResult Unit) : PyResult Unit :=
  if !knownType then PyResult.normal ()
  else if !fileExists then PyResult.normal ()
  else
    match body with
    | PyResult.normal v => PyResult.normal v
    | PyResult.raised _ => PyResult.normal ()

theorem mem_intRange {a b x : Int} : x ∈ intRange a b ↔ a ≤ x ∧ x < b := by
  simp only [intRange, List.mem_map, List.mem_range]
  constructor
  · rintro ⟨i, hi, rfl⟩
    omega
  · rintro ⟨h1, h2⟩
    exact ⟨(x - a).toNat, by omega, by omega⟩

theorem intRange_nodup (a b : Int) : (intRange a b).Nodup := by
  unfold intRange
  refine List.Nodup.map ?_ (List.nodup_range _)
  intro i j h
  dsimp only at h
  omega

theorem intRange_sorted (a b : Int) : List.Sorted (· < ·) (intRange a b) := by
  unfold intRange
  refine List.Pairwise.map _ ?_ (List.pairwise_lt_range _)
  intro i j h
  omega

theorem intRange_eq_nil {a b : Int} (h : b ≤ a) : intRange a b = [] := by
  simp only [intRange]
  have : (b - a).toNat = 0 := by omega
  simp [this]

/-- Inversion: a successful resolution means all three validation checks
passed and the result is the two concatenated blocks. -/
theorem resolvePages_ok {first skip : Int × Int} {n : Int} {l : List Int}
    (h : resolvePages first skip n = Except.ok l) :
    first.2 ≤ n ∧ 0 ≤ first.1 - 1 ∧ skip.1 - 1 < n ∧
    l = intRange (first.1 - 1) first.2 ++
        (if skip.2 < n then intRange skip.2 n else []) := by
  unfold resolvePages at h
  dsimp only at h
  split at h
  · exact absurd h (by simp)
  · split at h
    · exact absurd h (by simp)
    · split at h
      · exact absurd h (by simp)
      · refine ⟨by omega, by omega, by omega, ?_⟩
        simpa using h.symm

/-- C1: for every totalPages at least 13, resolving keep range (1,10) with
skip range (11,13) succeeds and yields exactly the 0-indexed indices
0..9 followed by 13..totalPages-1, each part in ascending order, with no
duplicates overall. -/
theorem claim_C1_resolution_keep_skip (n : Int) (h : 13 ≤ n) :
    resolvePages (1, 10) (11, 13) n = Except.ok (intRange 0 10 ++ intRange 13 n) ∧
    List.Sorted (· < ·) (intRange 0 10) ∧
    List.Sorted (· < ·) (intRange 13 n) ∧
    (intRange 0 10 ++ intRange 13 n).Nodup := by
  refine ⟨?_, intRange_sorted 0 10, intRange_sorted 13 n, ?_⟩
  · rcases lt_or_ge (13 : Int) n with hlt | hge
    · unfold resolvePages
      dsimp only
      rw [if_neg (by omega), if_neg (by omega), if_neg (by omega), if_pos hlt]
      norm_num
    · have hn : n = 13 := by omega
      subst hn
      rfl
  · rw [List.nodup_append]
    refine ⟨intRange_nodup _ _, intRange_nodup _ _, ?_⟩
    intro x hx hy
    rw [mem_intRange] at hx
    rw [mem_intRange] at hy
    omega

/-- Witness for C1 at totalPages = 14. -/
theorem claim_C1_resolution_keep_skip_witness :
    (13 : Int) ≤ 14 ∧
    (resolvePages (1, 10) (11, 13) 14 = Except.ok (intRange 0 10 ++ intRange 13 14) ∧
     List.Sorted (· < ·) (intRange 0 10) ∧
     List.Sorted (· < ·) (intRange 13 14) ∧
     (intRange 0 10 ++ intRange 13 14).Nodup) :=
  ⟨by decide, claim_C1_resolution_keep_skip 14 (by decide)⟩

/-- C2: with a 20-page source, first range (1,10) and skip range (11,13),
resolution yields the 17 indices 0..9, 13..19; assembling them copies
exactly those source pages in that order, so output pages 1-10 are source
pages 1-10 and output pages 11-17 are source pages 14-20; and in general
the assembled output's page count equals the length of the resolved page
list. -/
theorem claim_C2_end_to_end_20_pages {α : Type} (source : Int → α) :
    resolvePages (1, 10) (11, 13) 20 =
      Except.ok [0, 1, 2, 3, 4, 5, 6, 7, 8, 9, 13, 14, 15, 16, 17, 18, 19] ∧
    assemble source [0, 1, 2, 3, 4, 5, 6, 7, 8, 9, 13, 14, 15, 16, 17, 18, 19] =
      [source 0, source 1, source 2, source 3, source 4, source 5, source 6,
       source 7, source 8, source 9, source 13, source 14, source 15, source 16,
       source 17, source 18, source 19] ∧
    ∀ pages : List Int, (assemble source pages).length = pages.length := by
  refine ⟨rfl, rfl, fun pages => ?_⟩
  simp [assemble]

/-- C7: validating keep range (1,15) against a 10-page document fails with
the first-range-end error carrying end = 15 and totalPages = 10, whose
message cites both numbers; run through the whole function, the call
raises that ValueError rather than returning normally, so no page is
copied. -/
theorem claim_C7_range_error_payload :
    resolvePages (1, 15) (11, 13) 10 =
      Except.error (SplitError.firstEndExceeds 15 10) ∧
    splitErrMsg (SplitError.firstEndExceeds 15 10) =
      "First range end (15) exceeds total pages (10)" ∧
    create_exploring_ai_report ⟨none, Except.ok 10, none⟩ (1, 15) (11, 13) =
      PyResult.raised (PyExc.valueError "First range end (15) exceeds total pages (10)") :=
  ⟨rfl, rfl, rfl⟩

/-- C3 counterexample: with totalPages = 10 and skip range (11,13), the code
does NOT treat the past-the-end skip range as a no-op yielding [0..9]; the
check `skip_start_idx >= total_pages` (split_pdf.py line 108) raises a
ValueError instead. -/
theorem claim_C3_counterexample :
    resolvePages (1, 10) (11, 13) 10 =
      Except.error (SplitError.skipStartExceeds 11 10) := rfl

/-- C3 amended: whenever the keep-range checks pass but the skip range's
0-indexed start lies at or past the end of the document, resolution fails
with the skip-start ValueError (citing the skip start and totalPages)
rather than succeeding as a no-op. -/
theorem claim_C3_amended (first skip : Int × Int) (n : Int)
    (h1 : first.2 ≤ n) (h2 : 1 ≤ first.1) (h3 : n ≤ skip.1 - 1) :
    resolvePages first skip n =
      Except.error (SplitError.skipStartExceeds skip.1 n) := by
  unfold resolvePages
  dsimp only
  rw [if_neg (by omega), if_neg (by omega), if_pos (by omega)]

/-- Witness for the amended C3 at first = (1,10), skip = (11,13),
totalPages = 10. -/
theorem claim_C3_amended_witness :
    ((1, 10) : Int × Int).2 ≤ 10 ∧ (1 : Int) ≤ ((1, 10) : Int × Int).1 ∧
    (10 : Int) ≤ ((11, 13) : Int × Int).1 - 1 ∧
    resolvePages (1, 10) (11, 13) 10 =
      Except.error (SplitError.skipStartExceeds 11 10) :=
  ⟨by decide, by decide, by decide,
   claim_C3_amended (1, 10) (11, 13) 10 (by decide) (by decide) (by decide)⟩

/-- C4 counterexample: keep range (1,10) and skip range (2,5) pass all
three validation checks against a 10-page document, yet the resolved
sequence contains indices 5..9 twice — the code never deduplicates, so a
skip range ending inside the keep range copies pages twice. -/
theorem claim_C4_counterexample :
    resolvePages (1, 10) (2, 5) 10 =
      Except.ok [0, 1, 2, 3, 4, 5, 6, 7, 8, 9, 5, 6, 7, 8, 9] ∧
    ¬ ([0, 1, 2, 3, 4, 5, 6, 7, 8, 9, 5, 6, 7, 8, 9] : List Int).Nodup :=
  ⟨rfl, by decide⟩

/-- C4 amended: the resolved sequence is duplicate-free provided the skip
range ends at or after the keep range's end (the head-skip-tail pattern);
when the skip range ends inside the keep range the tail block re-emits
indices already emitted by the keep block. -/
theorem claim_C4_amended (first skip : Int × Int) (n : Int) (l : List Int)
    (hsep : first.2 ≤ skip.2)
    (hok : resolvePages first skip n = Except.ok l) :
    l.Nodup := by
  obtain ⟨h1, h2, h3, hl⟩ := resolvePages_ok hok
  subst hl
  rw [List.nodup_append]
  refine ⟨intRange_nodup _ _, ?_, ?_⟩
  · by_cases hc : skip.2 < n
    · rw [if_pos hc]
      exact intRange_nodup _ _
    · rw [if_neg hc]
      exact List.nodup_nil
  · intro x hx hy
    rw [mem_intRange] at hx
    by_cases hc : skip.2 < n
    · rw [if_pos hc, mem_intRange] at hy
      omega
    · rw [if_neg hc] at hy
      simp at hy

/-- Witness for the amended C4 at first = (1,10), skip = (11,13),
totalPages = 20. -/
theorem claim_C4_amended_witness :
    ((1, 10) : Int × Int).2 ≤ ((11, 13) : Int × Int).2 ∧
    resolvePages (1, 10) (11, 13) 20 =
      Except.ok [0, 1, 2, 3, 4, 5, 6, 7, 8, 9, 13, 14, 15, 16, 17, 18, 19] ∧
    ([0, 1, 2, 3, 4, 5, 6, 7, 8, 9, 13, 14, 15, 16, 17, 18, 19] : List Int).Nodup :=
  ⟨by decide, rfl, claim_C4_amended (1, 10) (11, 13) 20 _ (by decide) rfl⟩

/-- C5 counterexample: a keep range with start > end, here (5,3) against a
12-page document, is NOT rejected — the function performs no start-vs-end
check, so resolution returns normally (with an empty keep block). -/
theorem claim_C5_counterexample :
    ((5, 3) : Int × Int).1 > ((5, 3) : Int × Int).2 ∧
    resolvePages (5, 3) (11, 13) 12 = Except.ok [] :=
  ⟨by decide, rfl⟩

/-- C5 amended: a keep range whose start exceeds its end passes validation
(no error is raised on that account) and simply contributes zero pages:
the result is exactly the tail block. -/
theorem claim_C5_amended (first skip : Int × Int) (n : Int) (l : List Int)
    (hrev : first.2 < first.1)
    (hok : resolvePages first skip n = Except.ok l) :
    l = (if skip.2 < n then intRange skip.2 n else []) := by
  obtain ⟨h1, h2, h3, hl⟩ := resolvePages_ok hok
  rw [hl, intRange_eq_nil (by omega), List.nil_append]

/-- Witness for the amended C5 at first = (5,3), skip = (11,13),
totalPages = 12. -/
theorem claim_C5_amended_witness :
    ((5, 3) : Int × Int).2 < ((5, 3) : Int × Int).1 ∧
    resolvePages (5, 3) (11, 13) 12 = Except.ok [] ∧
    ([] : List Int) = (if (13 : Int) < 12 then intRange 13 12 else []) :=
  ⟨by decide, rfl, claim_C5_amended (5, 3) (11, 13) 12 [] (by decide) rfl⟩

/-- C6 counterexample: a skip range whose end exceeds totalPages while its
start is inside the document — (5,15) against a 12-page document — is NOT
rejected: resolution succeeds (the tail block is simply empty). -/
theorem claim_C6_counterexample :
    ((5, 15) : Int × Int).2 > 12 ∧
    resolvePages (1, 10) (5, 15) 12 = Except.ok [0, 1, 2, 3, 4, 5, 6, 7, 8, 9] :=
  ⟨by decide, rfl⟩

/-- C6 amended: only the FIRST (keep) range's end is validated against
totalPages — when it exceeds totalPages resolution fails with the
first-range-end error; a skip range whose end exceeds totalPages passes
validation (when the other checks pass) and behaves as skip-through-end,
yielding just the keep block. -/
theorem claim_C6_amended (first skip : Int × Int) (n : Int) :
    (first.2 > n →
      resolvePages first skip n =
        Except.error (SplitError.firstEndExceeds first.2 n)) ∧
    (first.2 ≤ n → 1 ≤ first.1 → skip.1 - 1 < n → n ≤ skip.2 →
      resolvePages first skip n = Except.ok (intRange (first.1 - 1) first.2)) := by
  constructor
  · intro h
    unfold resolvePages
    dsimp only
    rw [if_pos h]
  · intro h1 h2 h3 h4
    unfold resolvePages
    dsimp only
    rw [if_neg (by omega), if_neg (by omega), if_neg (by omega),
        if_neg (by omega), List.append_nil]

/-- Witness for the amended C6: keep range (2,15) against 10 pages is
rejected citing end = 15; skip range (5,15) against 12 pages is accepted
and yields just the keep block. -/
theorem claim_C6_amended_witness :
    ((2, 15) : Int × Int).2 > 10 ∧
    resolvePages (2, 15) (11, 13) 10 =
      Except.error (SplitError.firstEndExceeds 15 10) ∧
    resolvePages (1, 10) (5, 15) 12 = Except.ok (intRange 0 10) :=
  ⟨by decide, (claim_C6_amended (2, 15) (11, 13) 10).1 (by decide),
   (claim_C6_amended (1, 10) (5, 15) 12).2 (by decide) (by decide)
     (by decide) (by decide)⟩

/-- C8 counterexample: `generate_exploring_ai_report` (generate_report.py)
catches an exception raised by its body (`except Exception` on line 51),
prints a message, and returns normally — the caller cannot tell the run
failed. -/
theorem claim_C8_counterexample :
    generate_exploring_ai_report true (PyResult.raised (PyExc.valueError "boom")) =
      PyResult.normal () := rfl

/-- C8 amended: in split_pdf.py every exception caught inside
`create_exploring_ai_report` is re-raised (as itself or wrapped in an
IOError), so failures surface as terminal; but generate_report.py's
`generate_exploring_ai_report` and generate_all_reports.py's
`generate_personality_report` catch every exception, print, and return
normally. -/
theorem claim_C8_amended :
    (∀ e : PyExc, ∃ e2 : PyExc, splitExceptClauses e = PyResult.raised e2) ∧
    (∀ e : PyExc,
      generate_exploring_ai_report true (PyResult.raised e) = PyResult.normal ()) ∧
    (∀ e : PyExc,
      generate_personality_report true true (PyResult.raised e) =
        PyResult.normal ()) := by
  refine ⟨fun e => ?_, fun e => rfl, fun e => rfl⟩
  cases e <;> exact ⟨_, rfl⟩

/-- C9: under the preconditions that both 1-indexed ranges have
start >= 1 and start <= end, every index in a successfully resolved page
list (i.e. when the three validation checks pass) lies in
[0, totalPages), so every `reader.pages[i]` access is in bounds and no
Python negative-index access occurs. -/
theorem claim_C9_index_safety (first skip : Int × Int) (n : Int) (l : List Int)
    (hfs : 1 ≤ first.1) (_hfe : first.1 ≤ first.2)
    (hss : 1 ≤ skip.1) (hse : skip.1 ≤ skip.2)
    (hok : resolvePages first skip n = Except.ok l) :
    ∀ x ∈ l, 0 ≤ x ∧ x < n := by
  obtain ⟨h1, h2, h3, hl⟩ := resolvePages_ok hok
  subst hl
  intro x hx
  rw [List.mem_append] at hx
  rcases hx with hx | hx
  · rw [mem_intRange] at hx
    omega
  · by_cases hc : skip.2 < n
    · rw [if_pos hc, mem_intRange] at hx
      omega
    · rw [if_neg hc] at hx
      simp at hx

/-- Witness for C9 at first = (1,10), skip = (11,13), totalPages = 20. -/
theorem claim_C9_index_safety_witness :
    (1 : Int) ≤ ((1, 10) : Int × Int).1 ∧
    ((1, 10) : Int × Int).1 ≤ ((1, 10) : Int × Int).2 ∧
    (1 : Int) ≤ ((11, 13) : Int × Int).1 ∧
    ((11, 13) : Int × Int).1 ≤ ((11, 13) : Int × Int).2 ∧
    resolvePages (1, 10) (11, 13) 20 =
      Except.ok [0, 1, 2, 3, 4, 5, 6, 7, 8, 9, 13, 14, 15, 16, 17, 18, 19] ∧
    ∀ x ∈ ([0, 1, 2, 3, 4, 5, 6, 7, 8, 9, 13, 14, 15, 16, 17, 18, 19] : List Int),
      0 ≤ x ∧ x < 20 :=
  ⟨by decide, by decide, by decide, by decide, rfl,
   claim_C9_index_safety (1, 10) (11, 13) 20 _
     (by decide) (by decide) (by decide) (by decide) rfl⟩

/-- C10: whenever `create_exploring_ai_report` returns normally it returns
True — the documented False return is never produced — and hence `main`'s
`0 if success else 1` always takes the 0 branch on a normal return. -/
theorem claim_C10_returns_true (env : PdfEnv) (first skip : Int × Int) (b : Bool)
    (h : create_exploring_ai_report env first skip = PyResult.normal b) :
    b = true ∧ mainExitCode (create_exploring_ai_report env first skip) = 0 := by
  have hb : b = true := by
    rcases env with ⟨ic, rr, wr⟩
    unfold create_exploring_ai_report at h
    cases ic with
    | some e => simp at h
    | none =>
      dsimp only at h
      cases rr with
      | error e => cases e <;> simp [splitExceptClauses] at h
      | ok t =>
        dsimp only at h
        cases hres : resolvePages first skip (t : Int) with
        | error se =>
          rw [hres] at h
          simp [splitExceptClauses] at h
        | ok pages =>
          rw [hres] at h
          cases wr with
          | some e => cases e <;> simp [splitExceptClauses] at h
          | none => exact (PyResult.normal.inj h).symm
  subst hb
  refine ⟨rfl, ?_⟩
  rw [h]
  rfl

/-- Witness for C10 at a successful run over a 20-page document. -/
theorem claim_C10_returns_true_witness :
    create_exploring_ai_report ⟨none, Except.ok 20, none⟩ (1, 10) (11, 13) =
      PyResult.normal true ∧
    (true = true ∧
     mainExitCode
       (create_exploring_ai_report ⟨none, Except.ok 20, none⟩ (1, 10) (11, 13)) = 0) :=
  ⟨rfl, claim_C10_returns_true ⟨none, Except.ok 20, none⟩ (1, 10) (11, 13) true rfl⟩
